import Mathlib

/-!
Shallow embedding of the Wantok.ai authentication core
(`src/services/AuthService.ts`, `src/services/EventBus.ts`,
`src/models/User.ts`).

JavaScript `Record<string, T>` objects are modelled as association lists
(first matching key wins, as in iteration order); `Date.now()` and all
randomly generated values (unique ids, salts, token signatures) are passed
as explicit parameters; `localStorage` persistence is folded into a single
`AuthState` record; thrown errors are modelled with `Except String`.
-/

deriving instance DecidableEq for Except

namespace WantokAuth

/-- `UserRole` enum from `src/models/User.ts`. -/
inductive UserRole where
  | individual
  | business
  | admin
deriving DecidableEq, Repr

/-- `BusinessType` enum from `src/models/User.ts`. -/
inductive BusinessType where
  | soleProprietorship
  | partnership
  | limitedCompany
  | corporation
  | nonProfit
  | other
deriving DecidableEq, Repr

/-- A stored user record: `UserProfile & { password: string }` as persisted
in the simulated `users` store. Timestamps are epoch milliseconds. -/
structure StoredUser where
  id : String
  email : String
  firstName : Option String
  lastName : Option String
  businessName : Option String
  tinNumber : Option String
  businessType : Option BusinessType
  phoneNumber : Option String
  verified : Bool
  role : UserRole
  createdAt : Nat
  updatedAt : Nat
  password : String
deriving DecidableEq, Repr

/-- `UserProfile` from `src/models/User.ts` (no password field). -/
structure UserProfile where
  id : String
  email : String
  firstName : Option String
  lastName : Option String
  businessName : Option String
  tinNumber : Option String
  businessType : Option BusinessType
  phoneNumber : Option String
  verified : Bool
  role : UserRole
  createdAt : Nat
  updatedAt : Nat
deriving DecidableEq, Repr

/-- `sanitizeUser`: strips the password from a stored record. -/
def sanitizeUser (u : StoredUser) : UserProfile :=
  { id := u.id, email := u.email, firstName := u.firstName,
    lastName := u.lastName, businessName := u.businessName,
    tinNumber := u.tinNumber, businessType := u.businessType,
    phoneNumber := u.phoneNumber, verified := u.verified, role := u.role,
    createdAt := u.createdAt, updatedAt := u.updatedAt }

/-- One entry of the `loginAttempts` record: `{ count, lastAttempt }`. -/
structure AttemptRecord where
  count : Nat
  lastAttempt : Nat
deriving DecidableEq, Repr

/-- One entry of the `password_reset_tokens` / `email_verification_tokens`
stores: `{ token, expiresAt }`. -/
structure TokenRecord where
  token : String
  expiresAt : Nat
deriving DecidableEq, Repr

/-- Lookup in a JS-object-as-association-list (first matching key). -/
def lookupKey {α : Type} (k : String) : List (String × α) → Option α
  | [] => none
  | (k', v) :: rest => if k' = k then some v else lookupKey k rest

/-- Assignment `obj[k] = v`: replaces the first binding of `k`, or appends
a new binding (JS objects keep insertion order). -/
def setKey {α : Type} (k : String) (v : α) : List (String × α) → List (String × α)
  | [] => [(k, v)]
  | (k', v') :: rest => if k' = k then (k, v) :: rest else (k', v') :: setKey k v rest

/-- `delete obj[k]`: removes the binding(s) of `k` (JS object keys are
unique, so filtering all occurrences matches `delete`). -/
def removeKey {α : Type} (k : String) (l : List (String × α)) : List (String × α) :=
  l.filter (fun kv => kv.1 ≠ k)

/-- The complete mutable state of the `AuthService` singleton together with
its simulated `localStorage` stores. -/
structure AuthState where
  users : List StoredUser
  currentUser : Option UserProfile
  accessToken : Option String
  refreshToken : Option String
  tokenExpiresAt : Option Nat
  loginAttempts : List (String × AttemptRecord)
  resetTokens : List (String × TokenRecord)
  verificationTokens : List (String × TokenRecord)
deriving DecidableEq, Repr

/-- `MAX_LOGIN_ATTEMPTS`. -/
def MAX_LOGIN_ATTEMPTS : Nat := 5

/-- `LOCKOUT_DURATION` (15 minutes in milliseconds). -/
def LOCKOUT_DURATION : Nat := 15 * 60 * 1000

/-- `ACCESS_TOKEN_EXPIRY` (1 hour in milliseconds). -/
def ACCESS_TOKEN_EXPIRY : Nat := 60 * 60 * 1000

/-- `REFRESH_TOKEN_EXPIRY` (7 days in milliseconds). -/
def REFRESH_TOKEN_EXPIRY : Nat := 7 * 24 * 60 * 60 * 1000

/-- `REMEMBER_ME_EXPIRY` (30 days in milliseconds). -/
def REMEMBER_ME_EXPIRY : Nat := 30 * 24 * 60 * 60 * 1000

/-- `isRateLimited(email)`. Returns the boolean plus the (possibly
mutated) state, because the lockout check lazily deletes a stale counter
once the lockout window has elapsed past a count at the threshold. -/
def isRateLimited (email : String) (now : Nat) (st : AuthState) :
    Bool × AuthState :=
  match lookupKey email st.loginAttempts with
  | none => (false, st)
  | some attempts =>
    if attempts.count ≥ MAX_LOGIN_ATTEMPTS then
      if now < attempts.lastAttempt + LOCKOUT_DURATION then
        (true, st)
      else
        (false, { st with loginAttempts := removeKey email st.loginAttempts })
    else
      (false, st)

/-- `recordLoginAttempt(email)`: creates a `{count: 0, lastAttempt: now}`
entry when missing, then increments the count and stamps the time. -/
def recordLoginAttempt (email : String) (now : Nat) (st : AuthState) : AuthState :=
  match lookupKey email st.loginAttempts with
  | none =>
    { st with loginAttempts := setKey email ⟨1, now⟩ st.loginAttempts }
  | some attempts =>
    { st with loginAttempts := setKey email ⟨attempts.count + 1, now⟩ st.loginAttempts }

/-- `resetLoginAttempts(email)`. -/
def resetLoginAttempts (email : String) (st : AuthState) : AuthState :=
  { st with loginAttempts := removeKey email st.loginAttempts }

/-! ### Base64 (`btoa` / `atob`) -/

/-- JS `String.prototype.split` with a single-character separator,
character-list form: `"a..b"` splits to `["a", "", "b"]` and `""` to
`[""]`. -/
def splitOnChar (sep : Char) : List Char → List (List Char)
  | [] => [[]]
  | c :: rest =>
    match splitOnChar sep rest with
    | [] => [[c]]
    | g :: gs => if c = sep then [] :: g :: gs else (c :: g) :: gs

/-- JS `token.split(sep)` for a one-character separator. -/
def splitStr (sep : Char) (s : String) : List String :=
  (splitOnChar sep s.data).map String.mk

/-- JS `toLowerCase` (ASCII range). -/
def toLowerStr (s : String) : String := String.mk (s.data.map Char.toLower)

/-- Value of one base64 alphabet character. -/
def b64Val (c : Char) : Option Nat :=
  if 'A' ≤ c ∧ c ≤ 'Z' then some (c.toNat - 65)
  else if 'a' ≤ c ∧ c ≤ 'z' then some (c.toNat - 97 + 26)
  else if '0' ≤ c ∧ c ≤ '9' then some (c.toNat - 48 + 52)
  else if c = '+' then some 62
  else if c = '/' then some 63
  else none

/-- The base64 alphabet. -/
def b64Alphabet : List Char :=
  "ABCDEFGHIJKLMNOPQRSTUVWXYZabcdefghijklmnopqrstuvwxyz0123456789+/".data

/-- Character for a 6-bit value. -/
def b64Char (n : Nat) : Char := b64Alphabet.getD n 'A'

/-- Base64-decode a character stream into bytes; `none` on malformed
input (models `atob` throwing `InvalidCharacterError`). -/
def atobChars : List Char → Option (List Nat)
  | [] => some []
  | c1 :: c2 :: c3 :: c4 :: rest =>
    match b64Val c1, b64Val c2 with
    | some v1, some v2 =>
      if c3 = '=' ∧ c4 = '=' ∧ rest = [] then
        some [v1 * 4 + v2 / 16]
      else
        match b64Val c3 with
        | some v3 =>
          if c4 = '=' ∧ rest = [] then
            some [v1 * 4 + v2 / 16, (v2 % 16) * 16 + v3 / 4]
          else
            match b64Val c4 with
            | some v4 =>
              (atobChars rest).map (fun bs =>
                (v1 * 4 + v2 / 16) :: ((v2 % 16) * 16 + v3 / 4) ::
                ((v3 % 4) * 64 + v4) :: bs)
            | none => none
        | none => none
    | _, _ => none
  | _ => none

/-- `atob`: base64 string to (Latin-1) string. -/
def atob (s : String) : Option String :=
  (atobChars s.data).map (fun bs => String.mk (bs.map Char.ofNat))

/-- Base64-encode a byte stream. -/
def btoaBytes : List Nat → List Char
  | [] => []
  | [b1] => [b64Char (b1 / 4), b64Char ((b1 % 4) * 16), '=', '=']
  | [b1, b2] =>
    [b64Char (b1 / 4), b64Char ((b1 % 4) * 16 + b2 / 16),
     b64Char ((b2 % 16) * 4), '=']
  | b1 :: b2 :: b3 :: rest =>
    b64Char (b1 / 4) :: b64Char ((b1 % 4) * 16 + b2 / 16) ::
    b64Char ((b2 % 16) * 4 + b3 / 64) :: b64Char (b3 % 64) :: btoaBytes rest

/-- `btoa`: string to base64. `btoa` in JS throws on code points above 255;
the model is restricted to Latin-1 inputs (all uses here are ASCII JSON). -/
def btoa (s : String) : String :=
  String.mk (btoaBytes (s.data.map (fun c => c.toNat % 256)))

/-! ### Token payload JSON (`JSON.stringify` / `JSON.parse` on the
canonical `TokenPayload` object shape) -/

/-- `TokenPayload` interface: `{ userId, email, role, exp }` with `exp` in
seconds since epoch. -/
structure TokenPayload where
  userId : String
  email : String
  role : UserRole
  exp : Nat
deriving DecidableEq, Repr

/-- Serialized form of a `UserRole` enum value. -/
def roleString : UserRole → String
  | .individual => "individual"
  | .business => "business"
  | .admin => "admin"

/-- Parse a serialized `UserRole`. -/
def roleOfString (s : String) : Option UserRole :=
  if s = "individual" then some .individual
  else if s = "business" then some .business
  else if s = "admin" then some .admin
  else none

/-- `JSON.stringify` of a `TokenPayload` object (canonical key order, as
produced by `encodeToken`). -/
def stringifyPayload (p : TokenPayload) : String :=
  "\x7b\"userId\":\"" ++ p.userId ++ "\",\"email\":\"" ++ p.email ++
  "\",\"role\":\"" ++ roleString p.role ++ "\",\"exp\":" ++ toString p.exp ++ "\x7d"

/-- Consume an expected literal character sequence. -/
def dropLit : List Char → List Char → Option (List Char)
  | [], cs => some cs
  | _ :: _, [] => none
  | l :: ls, c :: cs => if c = l then dropLit ls cs else none

/-- Consume characters up to (and including) a closing quote. -/
def takeQuoted : List Char → Option (String × List Char)
  | [] => none
  | c :: cs =>
    if c = '"' then some ("", cs)
    else (takeQuoted cs).map (fun sr => (String.mk (c :: sr.1.data), sr.2))

/-- Consume a nonempty digit run as a `Nat`. -/
def takeNat (cs : List Char) : Option (Nat × List Char) :=
  let ds := cs.takeWhile Char.isDigit
  if ds = [] then none
  else some (ds.foldl (fun a c => a * 10 + (c.toNat - 48)) 0, cs.dropWhile Char.isDigit)

/-- `JSON.parse` restricted to the canonical `TokenPayload` shape produced
by `stringifyPayload` (string values without escape sequences). -/
def parseTokenPayload (s : String) : Option TokenPayload := do
  let cs := s.data
  let cs ← dropLit ("\x7b\"userId\":\"".data) cs
  let (uid, cs) ← takeQuoted cs
  let cs ← dropLit (",\"email\":\"".data) cs
  let (em, cs) ← takeQuoted cs
  let cs ← dropLit (",\"role\":\"".data) cs
  let (rs, cs) ← takeQuoted cs
  let role ← roleOfString rs
  let cs ← dropLit (",\"exp\":".data) cs
  let (e, cs) ← takeNat cs
  let cs ← dropLit ("\x7d".data) cs
  if cs = [] then some ⟨uid, em, role, e⟩ else none

/-- The fixed JWT header object `{ alg: "HS256", typ: "JWT" }`, stringified. -/
def headerJson : String := "\x7b\"alg\":\"HS256\",\"typ\":\"JWT\"\x7d"

/-- `encodeToken(payload)`: `btoa(header) + "." + btoa(payload) + "." +
signature`, with the "signature" a freshly generated unique id passed in
as `sig`. -/
def encodeToken (p : TokenPayload) (sig : String) : String :=
  btoa headerJson ++ "." ++ btoa (stringifyPayload p) ++ "." ++ sig

/-- `decodeToken(token)`: split on `"."`, require exactly three parts, and
parse the middle part — the header and signature parts are never
inspected. Any failure yields `null` (`none`). -/
def decodeToken (token : String) : Option TokenPayload :=
  match splitStr '.' token with
  | [_, b, _] =>
    match atob b with
    | none => none
    | some s => parseTokenPayload s
  | _ => none

/-- `generateTokens(userId, email, role, extendedSession)`: returns
`(accessToken, refreshToken, expiresAt)`. `sigA` / `sigR` are the two
generated signature ids. -/
def generateTokens (userId email : String) (role : UserRole)
    (extendedSession : Bool) (now : Nat) (sigA sigR : String) :
    String × String × Nat :=
  let accessTokenExpiry := now + ACCESS_TOKEN_EXPIRY
  let refreshTokenExpiry :=
    if extendedSession then now + REMEMBER_ME_EXPIRY else now + REFRESH_TOKEN_EXPIRY
  let accessPayload : TokenPayload := ⟨userId, email, role, accessTokenExpiry / 1000⟩
  let refreshPayload : TokenPayload := ⟨userId, email, role, refreshTokenExpiry / 1000⟩
  (encodeToken accessPayload sigA, encodeToken refreshPayload sigR, accessTokenExpiry)

/-! ### Validation helpers -/

/-- A character admissible inside the email regex classes `[^\s@]`. -/
def emailChunkChar (c : Char) : Bool := !c.isWhitespace && c ≠ '@'

/-- The email regex `/^[^\s@]+@[^\s@]+\.[^\s@]+$/`: a nonempty local part,
one `@`, then a domain (no further `@`, no whitespace) that decomposes as
`B ++ "." ++ C` with `B`, `C` nonempty. -/
def isValidEmail (s : String) : Bool :=
  let cs := s.data
  match cs.findIdx? (· = '@') with
  | none => false
  | some i =>
    let loc := cs.take i
    let rest := cs.drop (i + 1)
    !loc.isEmpty && loc.all emailChunkChar && rest.all emailChunkChar &&
      ((rest.drop 1).dropLast.contains '.')

/-- The special characters accepted by `isPasswordStrong`. -/
def specialChars : List Char :=
  ['!', '@', '#', '$', '%', '^', '&', '*', '(', ')', '_', '+', '-', '=',
   '[', ']', '\x7b', '\x7d', ';', '\'', ':', '"', '\\', '|', ',', '.',
   '<', '>', '/', '?']

/-- `isPasswordStrong(password)`: at least 8 characters with uppercase,
lowercase, digit and special character. -/
def isPasswordStrong (password : String) : Bool :=
  if password.length < 8 then false
  else
    password.data.any (fun c => 'A' ≤ c ∧ c ≤ 'Z') &&
    password.data.any (fun c => 'a' ≤ c ∧ c ≤ 'z') &&
    password.data.any (fun c => '0' ≤ c ∧ c ≤ '9') &&
    password.data.any (fun c => specialChars.contains c)

/-- `isValidTIN(tin)`: `/^\d{9,10}$/`. -/
def isValidTIN (tin : String) : Bool :=
  tin.data.all Char.isDigit && (tin.length = 9 ∨ tin.length = 10)

/-- `verifyPassword(password, storedHash)` with the SHA-256 digest
abstracted as `hashFn` (`simulateHash`): split the stored form on `":"`,
recompute the digest of `password + salt` and compare. -/
def verifyPassword (hashFn : String → String) (password storedHash : String) : Bool :=
  let parts := splitStr ':' storedHash
  let salt := parts.headD ""
  match parts[1]? with
  | none => false
  | some digest => hashFn (password ++ salt) = digest

/-! ### Session state helpers -/

/-- `AuthResponse` from `src/models/User.ts`. -/
structure AuthResponse where
  user : UserProfile
  accessToken : String
  refreshToken : Option String
  expiresAt : Nat
deriving DecidableEq, Repr

/-- `setCurrentSession(session)`: installs user, tokens and expiry in
memory (and `localStorage`, folded into the same state). -/
def setCurrentSession (resp : AuthResponse) (st : AuthState) : AuthState :=
  { st with currentUser := some resp.user
            accessToken := some resp.accessToken
            refreshToken := resp.refreshToken
            tokenExpiresAt := some resp.expiresAt }

/-- The session fields after `logout` has cleared them. -/
def clearSession (st : AuthState) : AuthState :=
  { st with currentUser := none
            accessToken := none
            refreshToken := none
            tokenExpiresAt := none }

/-- `logout()`: no-op without a current user, otherwise clears the whole
session. -/
def logout (st : AuthState) : AuthState :=
  match st.currentUser with
  | none => st
  | some _ => clearSession st

/-- `isTokenValid()`. -/
def isTokenValid (now : Nat) (st : AuthState) : Bool :=
  match st.accessToken, st.tokenExpiresAt with
  | some _, some e => now < e
  | _, _ => false

/-- `isAuthenticated()`. -/
def isAuthenticated (now : Nat) (st : AuthState) : Bool :=
  st.currentUser.isSome && st.accessToken.isSome && isTokenValid now st

/-- `findUserByEmail(email)`: case-insensitive lookup (first match). -/
def findUserByEmail (email : String) (st : AuthState) : Option StoredUser :=
  st.users.find? (fun u => toLowerStr u.email = toLowerStr email)

/-- Update the first stored user with the given id. -/
def updateFirstUser (userId : String) (f : StoredUser → StoredUser) :
    List StoredUser → List StoredUser
  | [] => []
  | u :: rest =>
    if u.id = userId then f u :: rest else u :: updateFirstUser userId f rest

/-- Find the first stored user with the given id (`findIndex` + read). -/
def findFirstUser (userId : String) : List StoredUser → Option StoredUser
  | [] => none
  | u :: rest => if u.id = userId then some u else findFirstUser userId rest

/-! ### register -/

/-- `RegisterUserPayload` from `src/models/User.ts`. Absent optional
fields are `none`. -/
structure RegisterUserPayload where
  email : String
  password : String
  confirmPassword : String
  businessName : Option String
  tinNumber : Option String
  businessType : Option BusinessType
  role : Option UserRole
deriving DecidableEq, Repr

/-- Truthiness of an optional string (JS `payload.x || undefined` and
`payload.x && ...` treat the empty string as falsy). -/
def truthy (s : Option String) : Option String :=
  s.bind (fun v => if v = "" then none else some v)

/-- `validateRegistrationPayload(payload)`: `none` on success, otherwise
the thrown error message. -/
def validateRegistrationPayload (p : RegisterUserPayload) : Option String :=
  if p.email = "" ∨ p.password = "" ∨ p.confirmPassword = "" then
    some "Missing required fields"
  else if ¬ isValidEmail p.email then
    some "Invalid email format"
  else if ¬ isPasswordStrong p.password then
    some "Password is not strong enough. It should have at least 8 characters, including uppercase, lowercase, number, and special character."
  else if p.password ≠ p.confirmPassword then
    some "Passwords do not match"
  else if (truthy p.tinNumber).any (fun t => ¬ isValidTIN t) then
    some "Invalid Papua New Guinea TIN number format"
  else
    none

/-- `sendVerificationEmail(email)`: looks the user up case-insensitively
and stores a fresh verification token (48h expiry) under their id. -/
def sendVerificationEmail (email : String) (now : Nat) (verifTok : String)
    (st : AuthState) : AuthState :=
  match findUserByEmail email st with
  | none => st
  | some u =>
    { st with verificationTokens :=
        setKey u.id ⟨verifTok, now + 48 * 60 * 60 * 1000⟩ st.verificationTokens }

/-- `register(payload)`. Generated values are parameters: `freshId` (the
new user id), `hashed` (the salted password hash), `sigA`/`sigR` (token
signatures) and `verifTok` (the verification token). The duplicate-email
check compares with `===` (exact, case-sensitive equality). -/
def register (p : RegisterUserPayload) (now : Nat)
    (freshId hashed sigA sigR verifTok : String) (st : AuthState) :
    Except String AuthResponse × AuthState :=
  match validateRegistrationPayload p with
  | some msg => (.error msg, st)
  | none =>
    if st.users.any (fun u => u.email = p.email) then
      (.error "Email is already registered", st)
    else
      let newUser : StoredUser :=
        { id := freshId, email := p.email, firstName := none, lastName := none,
          businessName := truthy p.businessName, tinNumber := truthy p.tinNumber,
          businessType := none, phoneNumber := none, verified := false,
          role := p.role.getD .individual, createdAt := now, updatedAt := now,
          password := hashed }
      let st1 := { st with users := st.users ++ [newUser] }
      let (accessToken, refreshToken, expiresAt) :=
        generateTokens freshId p.email newUser.role false now sigA sigR
      let resp : AuthResponse :=
        ⟨sanitizeUser newUser, accessToken, some refreshToken, expiresAt⟩
      let st2 := setCurrentSession resp st1
      let st3 := sendVerificationEmail p.email now verifTok st2
      (.ok resp, st3)

/-! ### login -/

/-- `LoginPayload` from `src/models/User.ts` (`rememberMe` defaults to
`false` when absent). -/
structure LoginPayload where
  email : String
  password : String
  rememberMe : Bool
deriving DecidableEq, Repr

/-- `login(payload)`: the lockout check runs first; only when it passes is
the attempt recorded, then lookup, password verification, counter reset
and session installation follow. -/
def login (hashFn : String → String) (p : LoginPayload) (now : Nat)
    (sigA sigR : String) (st : AuthState) :
    Except String AuthResponse × AuthState :=
  let (limited, st1) := isRateLimited p.email now st
  if limited then
    (.error "Too many login attempts. Please try again later.", st1)
  else
    let st2 := recordLoginAttempt p.email now st1
    match findUserByEmail p.email st2 with
    | none => (.error "Invalid email or password", st2)
    | some user =>
      if ¬ verifyPassword hashFn p.password user.password then
        (.error "Invalid email or password", st2)
      else
        let st3 := resetLoginAttempts p.email st2
        let (accessToken, refreshToken, expiresAt) :=
          generateTokens user.id user.email user.role p.rememberMe now sigA sigR
        let resp : AuthResponse :=
          ⟨sanitizeUser user, accessToken, some refreshToken, expiresAt⟩
        (.ok resp, setCurrentSession resp st3)

/-! ### refreshAccessToken -/

/-- `refreshAccessToken()`: `null` when no refresh token or no current
user; decodes the refresh token and forces logout (returning `null`) when
it is undecodable or expired; otherwise mints a new access token only and
updates the session. Never throws to the caller. -/
def refreshAccessToken (now : Nat) (sigA sigR : String) (st : AuthState) :
    AuthState × Option AuthResponse :=
  match st.refreshToken, st.currentUser with
  | none, _ => (st, none)
  | some _, none => (st, none)
  | some rt, some user =>
    match decodeToken rt with
    | none => (logout st, none)
    | some payload =>
      if now ≥ payload.exp * 1000 then
        (logout st, none)
      else
        let (accessToken, _, expiresAt) :=
          generateTokens user.id user.email user.role false now sigA sigR
        ({ st with accessToken := some accessToken
                   tokenExpiresAt := some expiresAt },
         some ⟨user, accessToken, none, expiresAt⟩)

/-! ### verifyEmail -/

/-- `verifyEmail(userId, token)`: best-effort verification. Returns
`false` (with no state change) on a missing or mismatched token, an
expired token, or an unknown user; on an exact unexpired match it flips
`verified`, refreshes the in-memory user when it is the active one,
deletes the token, and returns `true`. The surrounding try/catch means it
never throws; the model is a total function. -/
def verifyEmail (userId token : String) (now : Nat) (st : AuthState) :
    Bool × AuthState :=
  match lookupKey userId st.verificationTokens with
  | none => (false, st)
  | some stored =>
    if stored.token ≠ token ∨ now > stored.expiresAt then (false, st)
    else
      match findFirstUser userId st.users with
      | none => (false, st)
      | some _ =>
        let users' :=
          updateFirstUser userId
            (fun u => { u with verified := true, updatedAt := now }) st.users
        let currentUser' :=
          match st.currentUser with
          | some cu => if cu.id = userId then some { cu with verified := true } else some cu
          | none => none
        (true,
         { st with users := users'
                   currentUser := currentUser'
                   verificationTokens := removeKey userId st.verificationTokens })

/-! ### resetPassword -/

/-- `PasswordResetPayload` from `src/models/User.ts`. -/
structure PasswordResetPayload where
  token : String
  newPassword : String
  confirmPassword : String
deriving DecidableEq, Repr

/-- `verifyResetToken(token)`: scans the reset-token store in insertion
order and returns the first user id whose record holds this token,
unexpired. -/
def verifyResetToken (token : String) (now : Nat) :
    List (String × TokenRecord) → Option String
  | [] => none
  | (uid, rec) :: rest =>
    if rec.token = token ∧ now ≤ rec.expiresAt then some uid
    else verifyResetToken token now rest

/-- `resetPassword(payload)`: validates the password pair, consumes the
token, rehashes (`hashed` stands for the freshly salted hash) and deletes
the token record. Returns the thrown message or `true`. -/
def resetPassword (p : PasswordResetPayload) (now : Nat) (hashed : String)
    (st : AuthState) : Except String Bool × AuthState :=
  if p.newPassword ≠ p.confirmPassword then
    (.error "Passwords do not match", st)
  else if ¬ isPasswordStrong p.newPassword then
    (.error "Password is not strong enough. It should have at least 8 characters, including uppercase, lowercase, number, and special character.", st)
  else
    match verifyResetToken p.token now st.resetTokens with
    | none => (.error "Invalid or expired reset token", st)
    | some userId =>
      match findFirstUser userId st.users with
      | none => (.error "User not found", st)
      | some _ =>
        let users' :=
          updateFirstUser userId
            (fun u => { u with password := hashed, updatedAt := now }) st.users
        (.ok true,
         { st with users := users'
                   resetTokens := removeKey userId st.resetTokens })

/-! ### updateProfile -/

/-- The `updates: Partial<UserProfile>` argument. The outer `Option`
models presence of the property on the object (`'field' in updates`); for
fields that are themselves optional in `UserProfile` the inner value is
again optional. Non-allow-listed properties can be supplied but are never
read by `updateProfile`. -/
structure ProfileUpdates where
  id : Option String
  email : Option String
  firstName : Option (Option String)
  lastName : Option (Option String)
  businessName : Option (Option String)
  tinNumber : Option (Option String)
  businessType : Option (Option BusinessType)
  phoneNumber : Option (Option String)
  verified : Option Bool
  role : Option UserRole
deriving DecidableEq, Repr

/-- The updates object with no properties present. -/
def ProfileUpdates.empty : ProfileUpdates :=
  ⟨none, none, none, none, none, none, none, none, none, none⟩

/-- The allow-listed field copy loop of `updateProfile`: only
`firstName`, `lastName`, `businessName`, `phoneNumber` and `businessType`
are transferred from the updates object. -/
def applyAllowedUpdates (upd : ProfileUpdates) (u : StoredUser) : StoredUser :=
  { u with firstName := upd.firstName.getD u.firstName
           lastName := upd.lastName.getD u.lastName
           businessName := upd.businessName.getD u.businessName
           phoneNumber := upd.phoneNumber.getD u.phoneNumber
           businessType := upd.businessType.getD u.businessType }

/-- `updateProfile(userId, updates)`: `Unauthorized` unless authenticated
as exactly `userId`; otherwise copies the allow-listed fields, stamps
`updatedAt`, persists and refreshes the in-memory user. -/
def updateProfile (userId : String) (upd : ProfileUpdates) (now : Nat)
    (st : AuthState) : Except String UserProfile × AuthState :=
  if ¬ (isAuthenticated now st ∧ st.currentUser.any (fun cu => cu.id = userId)) then
    (.error "Unauthorized", st)
  else
    match findFirstUser userId st.users with
    | none => (.error "User not found", st)
    | some u =>
      let u' := { applyAllowedUpdates upd u with updatedAt := now }
      let users' := updateFirstUser userId (fun _ => u') st.users
      let currentUser' :=
        match st.currentUser with
        | some cu => if cu.id = userId then some (sanitizeUser u') else some cu
        | none => none
      (.ok (sanitizeUser u'),
       { st with users := users', currentUser := currentUser' })

/-! ### EventBus (`src/services/EventBus.ts`) -/

/-- A subscriber callback. The payload has type `α`; a callback either
completes with a result of type `β` or throws an error of type `ε`. -/
def EventCallback (α β ε : Type) : Type := α → Except ε β

/-- The `listeners` record of the `EventBus` singleton. -/
structure EventBusState (α β ε : Type) where
  listeners : List (String × List (EventCallback α β ε))

/-- `on(event, callback)`: appends the callback to the (possibly fresh)
listener list for the event. -/
def onEvent {α β ε : Type} (bus : EventBusState α β ε) (event : String)
    (cb : EventCallback α β ε) : EventBusState α β ε :=
  match lookupKey event bus.listeners with
  | none => ⟨setKey event [cb] bus.listeners⟩
  | some cbs => ⟨setKey event (cbs ++ [cb]) bus.listeners⟩

/-- One loop iteration of `emit`: the callback is invoked inside
`try/catch`, a thrown error is logged and swallowed. -/
def runListener {α β ε : Type} (cb : EventCallback α β ε) (data : α) : Option β :=
  match cb data with
  | .ok b => some b
  | .error _ => none

/-- The `for (const callback of this.listeners[event])` loop: every
callback is invoked, in list order, regardless of earlier throws. The
returned list holds one entry per invocation. -/
def emitLoop {α β ε : Type} : List (EventCallback α β ε) → α → List (Option β)
  | [], _ => []
  | cb :: rest, data => runListener cb data :: emitLoop rest data

/-- `emit(event, data)`: early return when no listener list exists for
the event, otherwise run the loop. -/
def emit {α β ε : Type} (bus : EventBusState α β ε) (event : String)
    (data : α) : List (Option β) :=
  match lookupKey event bus.listeners with
  | none => []
  | some cbs => emitLoop cbs data

/-! ### Concrete fixtures used by closed theorems -/

/-- A stored user for concrete scenarios. -/
def fixtureUser : StoredUser :=
  { id := "u1", email := "a@x.com", firstName := none, lastName := none,
    businessName := none, tinNumber := none, businessType := none,
    phoneNumber := none, verified := false, role := .individual,
    createdAt := 0, updatedAt := 0, password := "s:h" }

/-- The sanitized profile of `fixtureUser`. -/
def fixtureProfile : UserProfile := sanitizeUser fixtureUser

/-- A state holding exactly `fixtureUser` and nothing else. -/
def baseState : AuthState :=
  { users := [fixtureUser], currentUser := none, accessToken := none,
    refreshToken := none, tokenExpiresAt := none, loginAttempts := [],
    resetTokens := [], verificationTokens := [] }

/-- A refresh token for `fixtureUser` expiring at epoch second 700000. -/
def fixtureRefreshToken : String :=
  encodeToken ⟨"u1", "a@x.com", .individual, 700000⟩ "origsig"

/-- `baseState` with an active session for `fixtureUser` (access token
expiring at millisecond 3601000). -/
def sessionState : AuthState :=
  { baseState with currentUser := some fixtureProfile
                   accessToken := some "at"
                   refreshToken := some fixtureRefreshToken
                   tokenExpiresAt := some 3601000 }

/-! ### Helper lemmas on the association-list operations -/

theorem lookupKey_setKey_self {α : Type} (k : String) (v : α)
    (l : List (String × α)) : lookupKey k (setKey k v l) = some v := by
  induction l with
  | nil => simp [setKey, lookupKey]
  | cons head tail ih =>
    obtain ⟨k', v'⟩ := head
    by_cases h : k' = k <;> simp [setKey, lookupKey, h, ih]

theorem lookupKey_removeKey_self {α : Type} (k : String)
    (l : List (String × α)) : lookupKey k (removeKey k l) = none := by
  induction l with
  | nil => simp [removeKey, lookupKey]
  | cons head tail ih =>
    obtain ⟨k', v'⟩ := head
    by_cases h : k' = k
    · simp_all [removeKey, lookupKey, List.filter]
    · simp_all [removeKey, lookupKey, List.filter]

/-- A lockout check that reports `true` leaves the state untouched. -/
theorem isRateLimited_true_fix (email : String) (now : Nat) (st : AuthState)
    (h : (isRateLimited email now st).1 = true) :
    isRateLimited email now st = (true, st) := by
  unfold isRateLimited at h ⊢
  cases hl : lookupKey email st.loginAttempts with
  | none => simp [hl] at h
  | some a =>
    simp only [hl] at h ⊢
    split_ifs at h ⊢
    simp_all

/-! ### Claim C1 -/

/-- The registration payload for the case-variant email scenario: same
email as `fixtureUser` except for the case of the first letter, with a
valid strong password. -/
def caseVariantPayload : RegisterUserPayload :=
  { email := "A@x.com", password := "Abcd123!", confirmPassword := "Abcd123!",
    businessName := none, tinNumber := none, businessType := none, role := none }

/-- C1: with `"a@x.com"` already stored, registering `"A@x.com"` does NOT
fail with Conflict — the duplicate-email check in `register` compares with
`===` (case-sensitively), so the second registration succeeds and a second
user record is stored, contradicting the spec's case-insensitive Conflict
requirement (while `findUserByEmail`, used by login, compares
case-insensitively, so the second user's record is shadowed at login). -/
theorem c1_register_duplicate_check_is_case_sensitive :
    baseState.users.map (fun u => u.email) = ["a@x.com"] ∧
    (register caseVariantPayload 1000 "u2" "salt:hash" "sa" "sr" "vt" baseState).1.isOk = true ∧
    (register caseVariantPayload 1000 "u2" "salt:hash" "sa" "sr" "vt" baseState).1 ≠
      .error "Email is already registered" ∧
    (register caseVariantPayload 1000 "u2" "salt:hash" "sa" "sr" "vt" baseState).2.users.map
      (fun u => u.email) = ["a@x.com", "A@x.com"] ∧
    (register { caseVariantPayload with email := "a@x.com" } 1000 "u2" "salt:hash" "sa" "sr" "vt"
      baseState).1 = .error "Email is already registered" := by
  decide

/-! ### Claim C2 -/

/-- C2 (amended): `login` consults the lockout check FIRST; when the
identity is locked out the call fails with the rate-limit error and the
whole state — in particular the failed-attempt counter and its
`lastAttempt` stamp — is left unchanged. The attempt is NOT recorded. -/
theorem c2_login_checks_lockout_before_recording
    (hashFn : String → String) (p : LoginPayload) (now : Nat)
    (sigA sigR : String) (st : AuthState)
    (h : (isRateLimited p.email now st).1 = true) :
    login hashFn p now sigA sigR st =
      (.error "Too many login attempts. Please try again later.", st) := by
  unfold login
  rw [isRateLimited_true_fix p.email now st h]
  rfl

/-- A state whose counter for `"a@x.com"` is at the threshold with a
recent last attempt, i.e. locked out at time 200. -/
def lockedState : AuthState :=
  { baseState with loginAttempts := [("a@x.com", ⟨5, 100⟩)] }

/-- C2 counterexample: a login attempt during lockout leaves the counter
at count 5 with `lastAttempt` still 100 — the attempt is not recorded and
the stamp not refreshed, refuting the claimed record-then-check order. -/
theorem c2_counterexample_lockout_attempt_not_recorded :
    (isRateLimited "a@x.com" 200 lockedState).1 = true ∧
    (login (fun s => s) ⟨"a@x.com", "pw", false⟩ 200 "sa" "sr" lockedState).2 = lockedState ∧
    lookupKey "a@x.com"
      (login (fun s => s) ⟨"a@x.com", "pw", false⟩ 200 "sa" "sr" lockedState).2.loginAttempts =
      some ⟨5, 100⟩ := by
  decide

/-- C2 witness: the amended theorem applied at the concrete locked-out
state. -/
theorem c2_witness_lockout_login_unchanged :
    login (fun s => s) ⟨"a@x.com", "pw", false⟩ 200 "sa" "sr" lockedState =
      (.error "Too many login attempts. Please try again later.", lockedState) :=
  c2_login_checks_lockout_before_recording (fun s => s) ⟨"a@x.com", "pw", false⟩
    200 "sa" "sr" lockedState (by decide)

/-! ### Claim C3 -/

/-- C3 (amended): the lockout predicate is true iff a counter exists for
the identity with count at least 5 and elapsed time since the last
attempt below the 15-minute window. The lazy reset applies only when the
recorded count has reached the threshold: in that case, once the window
has elapsed, the check deletes the counter and the next recorded attempt
yields count 1. (For sub-threshold stale counters no reset happens — see
the counterexample.) -/
theorem c3_lockout_iff_and_lazy_reset_at_threshold
    (email : String) (now : Nat) (st : AuthState) :
    ((isRateLimited email now st).1 = true ↔
      ∃ a, lookupKey email st.loginAttempts = some a ∧
        MAX_LOGIN_ATTEMPTS ≤ a.count ∧ now < a.lastAttempt + LOCKOUT_DURATION) ∧
    (∀ a, lookupKey email st.loginAttempts = some a →
      MAX_LOGIN_ATTEMPTS ≤ a.count → a.lastAttempt + LOCKOUT_DURATION ≤ now →
      lookupKey email
        (recordLoginAttempt email now (isRateLimited email now st).2).loginAttempts =
        some ⟨1, now⟩) := by
  constructor
  · unfold isRateLimited
    cases hl : lookupKey email st.loginAttempts with
    | none => simp [hl]
    | some a =>
      simp only [hl]
      split_ifs with h1 h2 <;> simp_all [ge_iff_le]
  · intro a hl h5 hstale
    have h1 : isRateLimited email now st =
        (false, { st with loginAttempts := removeKey email st.loginAttempts }) := by
      unfold isRateLimited
      rw [hl]
      simp [ge_iff_le, h5, show ¬ now < a.lastAttempt + LOCKOUT_DURATION by omega]
    rw [h1]
    unfold recordLoginAttempt
    simp only [lookupKey_removeKey_self]
    exact lookupKey_setKey_self email (⟨1, now⟩ : AttemptRecord) _

/-- A counter of 3 failed attempts whose last attempt is a full lockout
window in the past. -/
def staleLowCountState : AuthState :=
  { baseState with loginAttempts := [("a@x.com", ⟨3, 0⟩)] }

/-- C3 counterexample: with a stale counter of 3 (window long elapsed),
the next recorded attempt (after the lockout check, as in `login`) yields
count 4, not 1 — the counter does not behave as reset to zero for
sub-threshold counts, refuting "regardless of the prior count". -/
theorem c3_counterexample_stale_low_count_not_reset :
    lookupKey "a@x.com" staleLowCountState.loginAttempts = some ⟨3, 0⟩ ∧
    0 + LOCKOUT_DURATION ≤ 1000000 ∧
    lookupKey "a@x.com"
      (recordLoginAttempt "a@x.com" 1000000
        (isRateLimited "a@x.com" 1000000 staleLowCountState).2).loginAttempts =
      some ⟨4, 1000000⟩ := by
  decide

/-- A counter of 7 failed attempts whose last attempt is a full lockout
window in the past. -/
def staleHighCountState : AuthState :=
  { baseState with loginAttempts := [("a@x.com", ⟨7, 0⟩)] }

/-- C3 witness: the amended theorem applied at a stale at-threshold
counter — the next recorded attempt yields count 1. -/
theorem c3_witness_stale_threshold_resets :
    lookupKey "a@x.com"
      (recordLoginAttempt "a@x.com" 1000000
        (isRateLimited "a@x.com" 1000000 staleHighCountState).2).loginAttempts =
      some ⟨1, 1000000⟩ :=
  (c3_lockout_iff_and_lazy_reset_at_threshold "a@x.com" 1000000 staleHighCountState).2
    ⟨7, 0⟩ (by decide) (by decide) (by decide)

/-! ### Claim C4 -/

/-- C4 (amended): with an active session and a decodable, unexpired
refresh token, `refreshAccessToken` installs a new access token expiring
exactly one access-token lifetime after the call time; whenever the prior
session expiry precedes that instant (as holds whenever the prior token
was issued strictly before the call), the new expiry is strictly later
than the prior one. The stored refresh token and the current user record
are unchanged, and a response is returned. -/
theorem c4_refresh_new_expiry_and_frames
    (now : Nat) (sigA sigR : String) (st : AuthState) (rt : String)
    (u : UserProfile) (p : TokenPayload) (e0 : Nat)
    (hrt : st.refreshToken = some rt) (hcu : st.currentUser = some u)
    (hdec : decodeToken rt = some p) (hfresh : now < p.exp * 1000)
    (_hprior : st.tokenExpiresAt = some e0)
    (hstrict : e0 < now + ACCESS_TOKEN_EXPIRY) :
    (refreshAccessToken now sigA sigR st).1.tokenExpiresAt =
      some (now + ACCESS_TOKEN_EXPIRY) ∧
    e0 < now + ACCESS_TOKEN_EXPIRY ∧
    (refreshAccessToken now sigA sigR st).1.refreshToken = st.refreshToken ∧
    (refreshAccessToken now sigA sigR st).1.currentUser = st.currentUser ∧
    (refreshAccessToken now sigA sigR st).2.isSome = true := by
  unfold refreshAccessToken
  rw [hrt, hcu]
  simp only [hdec, generateTokens]
  rw [if_neg (by omega)]
  simp [hstrict]

/-- C4 counterexample: `sessionState`'s prior access token expires at
millisecond 3601000; refreshing at `now = 1000` (the instant the prior
token was issued) succeeds but installs an expiry of exactly
1000 + 3600000 = 3601000 — equal to, not strictly later than, the prior
expiry, refuting the unconditional claim. -/
theorem c4_counterexample_equal_expiry_on_same_instant_refresh :
    sessionState.refreshToken = some fixtureRefreshToken ∧
    sessionState.currentUser = some fixtureProfile ∧
    (decodeToken fixtureRefreshToken).isSome = true ∧
    sessionState.tokenExpiresAt = some 3601000 ∧
    (refreshAccessToken 1000 "sa" "sr" sessionState).2.isSome = true ∧
    (refreshAccessToken 1000 "sa" "sr" sessionState).1.tokenExpiresAt = some 3601000 ∧
    ¬ (3601000 < 3601000) := by
  decide

/-- C4 witness: the amended theorem applied at `sessionState` with the
refresh call one second after issuance — the new expiry 3602000 is
strictly later than the prior 3601000, and refresh token and user are
unchanged. -/
theorem c4_witness_strictly_later_expiry :
    (refreshAccessToken 2000 "sa" "sr" sessionState).1.tokenExpiresAt = some 3602000 ∧
    3601000 < 3602000 ∧
    (refreshAccessToken 2000 "sa" "sr" sessionState).1.refreshToken =
      sessionState.refreshToken ∧
    (refreshAccessToken 2000 "sa" "sr" sessionState).1.currentUser =
      sessionState.currentUser ∧
    (refreshAccessToken 2000 "sa" "sr" sessionState).2.isSome = true :=
  c4_refresh_new_expiry_and_frames 2000 "sa" "sr" sessionState fixtureRefreshToken
    fixtureProfile ⟨"u1", "a@x.com", .individual, 700000⟩ 3601000
    (by decide) (by decide) (by decide) (by decide) (by decide) (by decide)

/-! ### Claim C5 -/

/-- C5: `refreshAccessToken` returns `null` without touching any state
when there is no refresh token or no current user; and when the refresh
token is undecodable or its embedded expiry is not in the future, it
clears the entire session (forced logout) and returns `null`. The model
is a total function: no exception reaches the caller on any of these
paths (the source wraps the body in try/catch returning `null`). -/
theorem c5_refresh_noop_and_fail_closed
    (now : Nat) (sigA sigR : String) (st : AuthState) :
    (st.refreshToken = none ∨ st.currentUser = none →
      refreshAccessToken now sigA sigR st = (st, none)) ∧
    (∀ rt u, st.refreshToken = some rt → st.currentUser = some u →
      (decodeToken rt = none ∨ ∃ p, decodeToken rt = some p ∧ p.exp * 1000 ≤ now) →
      refreshAccessToken now sigA sigR st = (clearSession st, none)) := by
  constructor
  · intro h
    unfold refreshAccessToken
    rcases h with h | h
    · rw [h]
    · rw [h]
      cases hrt : st.refreshToken <;> rfl
  · intro rt u hrt hcu hbad
    unfold refreshAccessToken
    simp only [hrt, hcu]
    rcases hbad with h | ⟨p, hp, hexp⟩
    · simp only [h]
      simp [logout, hcu, clearSession]
    · simp only [hp]
      rw [if_pos (by omega)]
      simp [logout, hcu, clearSession]

/-- `sessionState` whose stored refresh token is an undecodable string. -/
def garbageTokenState : AuthState :=
  { sessionState with refreshToken := some "garbage" }

/-- C5 witness: the theorem applied at a state without a refresh token
(no-op returning null) and at a state with an undecodable refresh token
(session cleared, null returned). -/
theorem c5_witness_noop_and_forced_logout :
    refreshAccessToken 5 "sa" "sr" baseState = (baseState, none) ∧
    refreshAccessToken 5 "sa" "sr" garbageTokenState =
      (clearSession garbageTokenState, none) :=
  ⟨(c5_refresh_noop_and_fail_closed 5 "sa" "sr" baseState).1 (Or.inl rfl),
   (c5_refresh_noop_and_fail_closed 5 "sa" "sr" garbageTokenState).2 "garbage"
     fixtureProfile rfl rfl (Or.inl (by decide))⟩

/-! ### Claim C6 -/

/-- Updating the first user with a given id keeps it findable when the
update preserves the id. -/
theorem findFirstUser_updateFirstUser (k : String) (f : StoredUser → StoredUser)
    (l : List StoredUser) (u : StoredUser) (hf : findFirstUser k l = some u)
    (hid : (f u).id = u.id) :
    findFirstUser k (updateFirstUser k f l) = some (f u) := by
  induction l with
  | nil => simp [findFirstUser] at hf
  | cons v rest ih =>
    by_cases h : v.id = k
    · simp only [findFirstUser, h, if_pos] at hf
      simp only [updateFirstUser, h, if_pos]
      cases hf
      simp [findFirstUser, hid, h]
    · simp only [findFirstUser, h, if_neg, ite_false] at hf
      simp only [updateFirstUser, h, ite_false]
      simp only [findFirstUser, h, ite_false]
      exact ih hf

/-- C6: `verifyEmail` returns `true` exactly when the stored token for
the user id matches the supplied token exactly, is unexpired, and the
user exists; on every failing combination (missing or mismatched token,
expired token, unknown user id) it returns `false` with the state fully
unchanged, and on success the stored user record is marked verified. The
model is a total function — no exception reaches the caller (the source
wraps the body in try/catch returning `false`). -/
theorem c6_verifyEmail_silent_and_exact
    (userId token : String) (now : Nat) (st : AuthState) :
    ((verifyEmail userId token now st).1 = true ↔
      ∃ rec, lookupKey userId st.verificationTokens = some rec ∧
        rec.token = token ∧ now ≤ rec.expiresAt ∧
        (findFirstUser userId st.users).isSome = true) ∧
    ((verifyEmail userId token now st).1 = false →
      (verifyEmail userId token now st).2 = st) ∧
    ((verifyEmail userId token now st).1 = true →
      ∃ u', findFirstUser userId (verifyEmail userId token now st).2.users = some u' ∧
        u'.verified = true) := by
  unfold verifyEmail
  cases hl : lookupKey userId st.verificationTokens with
  | none => simp [hl]
  | some rec =>
    simp only [hl]
    by_cases hbad : rec.token ≠ token ∨ now > rec.expiresAt
    · rw [if_pos hbad]
      refine ⟨iff_of_false (by simp) ?_, fun _ => rfl, by simp⟩
      rintro ⟨rec', hrec', htok, hexp, _⟩
      injection hrec' with heq
      subst heq
      rcases hbad with hb | hb
      · exact hb htok
      · omega
    · rw [if_neg hbad]
      push_neg at hbad
      obtain ⟨htok, hexp⟩ := hbad
      cases hu : findFirstUser userId st.users with
      | none => simp [hu, htok, hexp]
      | some u =>
        simp only [hu]
        refine ⟨by simp [htok, hexp], by simp, ?_⟩
        intro _
        refine ⟨{ u with verified := true, updatedAt := now }, ?_, rfl⟩
        exact findFirstUser_updateFirstUser userId _ st.users u hu rfl

/-- `baseState` with a verification token `"tok"` for `fixtureUser`,
expiring at millisecond 5000. -/
def verifState : AuthState :=
  { baseState with verificationTokens := [("u1", ⟨"tok", 5000⟩)] }

/-- C6 witness: the theorem applied at the concrete exact, unexpired
match — `verifyEmail` returns `true` and the stored record is verified. -/
theorem c6_witness_exact_match_verifies :
    (verifyEmail "u1" "tok" 100 verifState).1 = true ∧
    findFirstUser "u1" (verifyEmail "u1" "tok" 100 verifState).2.users =
      some { fixtureUser with verified := true, updatedAt := 100 } := by
  have h1 := (c6_verifyEmail_silent_and_exact "u1" "tok" 100 verifState).1.mpr
    ⟨⟨"tok", 5000⟩, rfl, rfl, by decide, by decide⟩
  exact ⟨h1, by decide⟩

/-! ### Claim C7 -/

/-- A reset-token scan over a store with no matching token value finds
nothing, regardless of the time. -/
theorem verifyResetToken_none_of_absent (token : String) (n : Nat)
    (l : List (String × TokenRecord)) (h : ∀ kv ∈ l, kv.2.token ≠ token) :
    verifyResetToken token n l = none := by
  induction l with
  | nil => rfl
  | cons kv rest ih =>
    obtain ⟨k, rec⟩ := kv
    unfold verifyResetToken
    rw [if_neg]
    · exact ih (fun kv' h' => h kv' (List.mem_cons_of_mem _ h'))
    · rintro ⟨htok, _⟩
      exact h (k, rec) (List.mem_cons_self _ _) htok

/-- Characterization of a successful `resetPassword`: the password is
rehashed on the stored record and the consumed token record is deleted in
the same operation. -/
theorem resetPassword_ok_state (p : PasswordResetPayload) (now : Nat)
    (hashed : String) (st : AuthState) (uid : String) (u : StoredUser)
    (hpm : p.newPassword = p.confirmPassword)
    (hps : isPasswordStrong p.newPassword = true)
    (hvt : verifyResetToken p.token now st.resetTokens = some uid)
    (hu : findFirstUser uid st.users = some u) :
    resetPassword p now hashed st =
      (.ok true,
       { st with
           users := updateFirstUser uid
             (fun v => { v with password := hashed, updatedAt := now }) st.users
           resetTokens := removeKey uid st.resetTokens }) := by
  unfold resetPassword
  rw [if_neg (not_not_intro hpm), if_neg (by simp [hps])]
  simp only [hvt, hu]

/-- C7: once a reset token has been successfully consumed (resolving to
user id `uid`, the only record holding this token value), the resulting
state holds no record with that token value any more, and a second
`resetPassword` call with the same payload fails with
"Invalid or expired reset token" — at any later (or equal) time and for
any fresh hash. -/
theorem c7_reset_token_single_use
    (p : PasswordResetPayload) (now now2 : Nat) (hashed hashed2 : String)
    (st : AuthState) (uid : String)
    (hvt : verifyResetToken p.token now st.resetTokens = some uid)
    (huniq : ∀ kv ∈ st.resetTokens, kv.2.token = p.token → kv.1 = uid)
    (hok : (resetPassword p now hashed st).1 = .ok true) :
    (∀ kv ∈ (resetPassword p now hashed st).2.resetTokens, kv.2.token ≠ p.token) ∧
    (resetPassword p now2 hashed2 (resetPassword p now hashed st).2).1 =
      .error "Invalid or expired reset token" := by
  have hpm : p.newPassword = p.confirmPassword := by
    by_contra h1
    unfold resetPassword at hok
    rw [if_pos h1] at hok
    simp at hok
  have hps : isPasswordStrong p.newPassword = true := by
    by_contra h2
    unfold resetPassword at hok
    rw [if_neg (not_not_intro hpm), if_pos h2] at hok
    simp at hok
  obtain ⟨u, hu⟩ : ∃ u, findFirstUser uid st.users = some u := by
    cases hu' : findFirstUser uid st.users with
    | none =>
      exfalso
      unfold resetPassword at hok
      rw [if_neg (not_not_intro hpm), if_neg (by simp [hps])] at hok
      simp only [hvt, hu'] at hok
      simp at hok
    | some u => exact ⟨u, rfl⟩
  have key := resetPassword_ok_state p now hashed st uid u hpm hps hvt hu
  rw [key]
  have habsent : ∀ kv ∈ removeKey uid st.resetTokens, kv.2.token ≠ p.token := by
    intro kv hmem htok
    have hm : kv ∈ st.resetTokens ∧ kv.1 ≠ uid := by
      simpa [removeKey, List.mem_filter] using hmem
    exact hm.2 (huniq kv hm.1 htok)
  refine ⟨habsent, ?_⟩
  unfold resetPassword
  rw [if_neg (not_not_intro hpm), if_neg (by simp [hps])]
  simp only [verifyResetToken_none_of_absent p.token now2 _ habsent]

/-- `baseState` with one reset token `"rst"` for `fixtureUser`, expiring
at millisecond 5000. -/
def resetState : AuthState :=
  { baseState with resetTokens := [("u1", ⟨"rst", 5000⟩)] }

/-- The reset payload consuming token `"rst"` with a valid strong
password pair. -/
def resetPayload : PasswordResetPayload := ⟨"rst", "Abcd123!", "Abcd123!"⟩

/-- C7 witness: the theorem applied at the concrete single-token store —
the second use of the consumed token fails with `InvalidToken`. -/
theorem c7_witness_second_use_fails :
    (resetPassword resetPayload 200 "n2:h2"
      (resetPassword resetPayload 100 "ns:nh" resetState).2).1 =
      .error "Invalid or expired reset token" :=
  (c7_reset_token_single_use resetPayload 100 200 "ns:nh" "n2:h2" resetState "u1"
    (by decide) (by decide) (by decide)).2

/-! ### Claim C8 -/

/-- C8: `updateProfile` fails with `Unauthorized` — leaving the state,
in particular every stored user record, unchanged — whenever the caller
is not authenticated as exactly the target `userId`; when the call
succeeds, the stored record's `id`, `email`, `role`, `verified` fields
(and also `password`, `tinNumber`, `createdAt`) are unchanged even if
the updates argument supplies values for them — only the allow-listed
profile fields (and the `updatedAt` stamp) can change. -/
theorem c8_updateProfile_authorization_and_immutable_fields
    (userId : String) (upd : ProfileUpdates) (now : Nat) (st : AuthState) :
    (¬ (isAuthenticated now st = true ∧
        st.currentUser.any (fun cu => cu.id = userId) = true) →
      updateProfile userId upd now st = (.error "Unauthorized", st)) ∧
    (∀ u, findFirstUser userId st.users = some u →
      (updateProfile userId upd now st).1.isOk = true →
      ∃ u', findFirstUser userId (updateProfile userId upd now st).2.users = some u' ∧
        u'.id = u.id ∧ u'.email = u.email ∧ u'.role = u.role ∧
        u'.verified = u.verified ∧ u'.password = u.password ∧
        u'.tinNumber = u.tinNumber ∧ u'.createdAt = u.createdAt) := by
  constructor
  · intro h
    unfold updateProfile
    rw [if_pos (by simpa using h)]
  · intro u hu hok
    by_cases hauth : (isAuthenticated now st = true ∧
        st.currentUser.any (fun cu => cu.id = userId) = true)
    · unfold updateProfile
      rw [if_neg (by simpa using not_not_intro hauth)]
      simp only [hu]
      refine ⟨{ applyAllowedUpdates upd u with updatedAt := now },
        findFirstUser_updateFirstUser userId _ st.users u hu rfl,
        rfl, rfl, rfl, rfl, rfl, rfl, rfl⟩
    · exfalso
      unfold updateProfile at hok
      rw [if_pos (by simpa using hauth)] at hok
      simp [Except.isOk, Except.toBool] at hok

/-- An updates object that tries to overwrite the immutable fields while
also legitimately setting `firstName`. -/
def evilUpdates : ProfileUpdates :=
  { ProfileUpdates.empty with firstName := some (some "New")
                              email := some "evil@x.com"
                              role := some .admin
                              verified := some true
                              id := some "u9" }

/-- `sessionState` whose active session belongs to a different user
(`"u2"`). -/
def mismatchSessionState : AuthState :=
  { sessionState with currentUser := some { fixtureProfile with id := "u2" } }

/-- C8 witness: the theorem applied concretely — a session for user
`"u2"` targeting `"u1"` fails with `Unauthorized` and changes nothing,
while an authorized call with `evilUpdates` changes `firstName` but
leaves `id`, `email`, `role` and `verified` untouched. -/
theorem c8_witness_unauthorized_and_allow_list :
    updateProfile "u1" evilUpdates 1000 mismatchSessionState =
      (.error "Unauthorized", mismatchSessionState) ∧
    findFirstUser "u1" (updateProfile "u1" evilUpdates 1000 sessionState).2.users =
      some { fixtureUser with firstName := some "New", updatedAt := 1000 } :=
  ⟨(c8_updateProfile_authorization_and_immutable_fields "u1" evilUpdates 1000
      mismatchSessionState).1 (by decide),
   by decide⟩

/-! ### Claim C9 -/

/-- The emit loop produces exactly one (caught) invocation result per
registered callback, in list order. -/
theorem emitLoop_eq_map {α β ε : Type} (cbs : List (EventCallback α β ε)) (data : α) :
    emitLoop cbs data = cbs.map (fun cb => runListener cb data) := by
  induction cbs with
  | nil => rfl
  | cons cb rest ih => simp [emitLoop, ih]

/-- C9: `emit` invokes every registered subscriber callback in
registration order — the result list has one entry per callback, each
equal to that callback's own (caught) outcome, independent of whether
earlier callbacks threw; and `on` appends a new callback at the end of
the event's listener list, so registration order is list order. -/
theorem c9_emit_all_subscribers_in_order
    {α β ε : Type} (bus : EventBusState α β ε) (event : String) (data : α)
    (cbs : List (EventCallback α β ε))
    (hl : lookupKey event bus.listeners = some cbs) :
    emit bus event data = cbs.map (fun cb => runListener cb data) ∧
    (∀ cb, lookupKey event (onEvent bus event cb).listeners = some (cbs ++ [cb])) := by
  constructor
  · unfold emit
    rw [hl]
    exact emitLoop_eq_map cbs data
  · intro cb
    unfold onEvent
    rw [hl]
    exact lookupKey_setKey_self event _ _

/-- A subscriber that completes normally, adding 1. -/
def cbAddOne : EventCallback Nat Nat String := fun d => .ok (d + 1)

/-- A subscriber that always throws. -/
def cbBoom : EventCallback Nat Nat String := fun _ => .error "boom"

/-- A subscriber that completes normally, adding 3. -/
def cbAddThree : EventCallback Nat Nat String := fun d => .ok (d + 3)

/-- A bus with three subscribers for `"evt"`, the middle one throwing. -/
def busC9 : EventBusState Nat Nat String :=
  ⟨[("evt", [cbAddOne, cbBoom, cbAddThree])]⟩

/-- C9 witness: the theorem applied at the concrete bus — the throwing
middle subscriber does not prevent the later-registered one from being
invoked. -/
theorem c9_witness_throwing_subscriber_does_not_block :
    emit busC9 "evt" 10 = [cbAddOne, cbBoom, cbAddThree].map (fun cb => runListener cb 10) ∧
    emit busC9 "evt" 10 = [some 11, none, some 13] ∧
    runListener cbBoom 10 = none :=
  ⟨(c9_emit_all_subscribers_in_order busC9 "evt" 10 [cbAddOne, cbBoom, cbAddThree] rfl).1,
   rfl, rfl⟩

/-! ### Claim C10 -/

/-- C10: `decodeToken` verifies no integrity stamp. For every token of
the form `a.b.c` whose middle part base64-decodes to a parseable claims
object, decoding returns exactly those claims — the header part `a` and
the signature part `c` are never inspected; consequently
`refreshAccessToken` accepts any such self-made token as a valid refresh
token as long as its embedded `exp` lies in the future, and mints a new
access token. -/
theorem c10_decode_ignores_signature_refresh_accepts_forged :
    (∀ token a b c s p, splitStr '.' token = [a, b, c] → atob b = some s →
      parseTokenPayload s = some p → decodeToken token = some p) ∧
    (∀ (now : Nat) (sigA sigR : String) (st : AuthState) (rt : String)
      (u : UserProfile) (a b c s : String) (p : TokenPayload),
      st.refreshToken = some rt → st.currentUser = some u →
      splitStr '.' rt = [a, b, c] → atob b = some s →
      parseTokenPayload s = some p → now < p.exp * 1000 →
      (refreshAccessToken now sigA sigR st).2.isSome = true) := by
  have hdecode : ∀ (token a b c s : String) (p : TokenPayload),
      splitStr '.' token = [a, b, c] → atob b = some s →
      parseTokenPayload s = some p → decodeToken token = some p := by
    intro token a b c s p hsplit hatob hparse
    unfold decodeToken
    simp only [hsplit]
    rw [hatob]
    exact hparse
  refine ⟨hdecode, ?_⟩
  intro now sigA sigR st rt u a b c s p hrt hcu hsplit hatob hparse hfresh
  have hdec : decodeToken rt = some p := hdecode rt a b c s p hsplit hatob hparse
  unfold refreshAccessToken
  simp only [hrt, hcu, hdec]
  rw [if_neg (by omega)]
  simp [generateTokens]

/-- The claims object embedded in the forged token. -/
def forgedPayload : TokenPayload := ⟨"u1", "a@x.com", .individual, 700000⟩

/-- A token assembled by hand: an arbitrary header part, the base64 of
the canonical claims JSON, and a signature that no key ever produced. -/
def forgedToken : String :=
  "forgedheader." ++ btoa (stringifyPayload forgedPayload) ++ ".forgedsig"

/-- `sessionState` holding the forged token as its refresh token. -/
def forgedState : AuthState :=
  { sessionState with refreshToken := some forgedToken }

/-- C10 witness: the theorem applied at the forged token — it decodes to
the embedded claims despite the fake signature, and `refreshAccessToken`
accepts it. -/
theorem c10_witness_forged_token_accepted :
    decodeToken forgedToken = some forgedPayload ∧
    (refreshAccessToken 1000 "sa" "sr" forgedState).2.isSome = true :=
  ⟨c10_decode_ignores_signature_refresh_accepts_forged.1 forgedToken
     "forgedheader" (btoa (stringifyPayload forgedPayload)) "forgedsig"
     (stringifyPayload forgedPayload) forgedPayload (by decide) (by decide) (by decide),
   c10_decode_ignores_signature_refresh_accepts_forged.2 1000 "sa" "sr" forgedState
     forgedToken fixtureProfile "forgedheader" (btoa (stringifyPayload forgedPayload))
     "forgedsig" (stringifyPayload forgedPayload) forgedPayload rfl rfl
     (by decide) (by decide) (by decide) (by decide)⟩

end WantokAuth
